import Mathlib

set_option maxRecDepth 4000

/-!
Verification of the freshness-filtering and caching pipeline of
`src/news_fetcher.py` (module `news_fetcher`), via a shallow embedding.

Modelling conventions:
* `datetime` values are `Int` timestamps in seconds; `datetime.now()` is an
  explicit parameter `now`; `timedelta(hours=h)` is `h * 3600`.
* The module-level switch `STRICT_24H_FILTER` is a constant (its source
  value), and the functions that read it also take the switch as an explicit
  parameter `strict`, so that both settings can be reasoned about.
* The regexes `\b2024\b`, `\b2023\b`, `\b2022\b` are modelled as a
  word-boundary substring search, with word characters taken to be ASCII
  alphanumerics and underscore (the patterns themselves are digit literals).
* `feedparser.parse` is a black box: a feed source carries either a parsed
  feed (optional feed title plus raw entries) or an error; the `try/except`
  around a source's processing is modelled by the error case contributing
  no entries (every operation inside the per-source loop is total).
* Raw timestamp fields (`published_parsed`, `updated_parsed`) are
  `Option (Option Int)`: `none` when the attribute is absent or falsy,
  `some none` when present but `datetime(*...)` raises,
  `some (some t)` when present and constructible with value `t`.
* Log output (`logger.*` calls) is modelled as an explicit list of events.
* Python's stable `list.sort(key=..., reverse=True)` is modelled by
  insertion sort with the total preorder "later or equal published first";
  a stable sort's output is uniquely determined by that preorder, so this
  agrees with the source's sort.
-/

/-- An article record as built by `fetch_recent_news` (before the `id` key is
added; the final records are `Nat × Article` pairs of id and article). -/
structure Article where
  title : String
  link : String
  source : String
  published : Int
  summary : String
  deriving DecidableEq, Repr

/-- One structured log event, modelling the `logger` calls of the module. -/
inductive LogEvent where
  | fetchStart (url : String)
  | fetchError (url : String)
  | rejectedAge
  | rejectedStaleYear (pat : String)
  | filterSummary (freshCount rejectedCount : Nat) (cutoff : Int)
  | filterDisabledWarning
  | zeroFreshWarning
  | fetchedCount (n : Nat)
  | idNotFoundWarning (id : Nat)
  deriving DecidableEq, Repr

/-- Word characters for the `\b` boundaries of the stale-year regexes:
ASCII alphanumerics and underscore. -/
def isWordChar (c : Char) : Bool := c.isAlphanum || c == '_'

/-- `matchHere pat s` holds when `pat` is an initial segment of `s` and the
character of `s` right after it (if any) is not a word character (the
trailing `\b`). -/
def matchHere : List Char → List Char → Bool
  | [], [] => true
  | [], c :: _ => !isWordChar c
  | _ :: _, [] => false
  | p :: ps, c :: cs => p == c && matchHere ps cs

/-- Scan of `re.search`: try to match at every position whose preceding
character is not a word character (the leading `\b`); `prevIsWord` records
whether the previous character was a word character. -/
def searchFrom (pat : List Char) (prevIsWord : Bool) : List Char → Bool
  | [] => false
  | c :: cs => (!prevIsWord && matchHere pat (c :: cs)) || searchFrom pat (isWordChar c) cs

/-- `re.search(r'\b' + pat + r'\b', text)` for a pattern made of word
characters, as a Bool. -/
def reSearchWord (pat : String) (text : String) : Bool :=
  searchFrom pat.toList false text.toList

/-- `STRICT_24H_FILTER = True` (module constant of `news_fetcher.py`). -/
def STRICT_24H_FILTER : Bool := true

/-- `STALE_YEAR_PATTERNS = [r'\b2024\b', r'\b2023\b', r'\b2022\b']`, kept as
the year literals; the `\b` boundaries live in `reSearchWord`. -/
def STALE_YEAR_PATTERNS : List String := ["2024", "2023", "2022"]

/-- The pattern loop of `filter_stale_articles`: the first pattern of
`STALE_YEAR_PATTERNS` matching `text` (the loop breaks at the first hit),
`none` when no pattern matches. -/
def staleYearHit (text : String) : Option String :=
  STALE_YEAR_PATTERNS.find? (fun p => reSearchWord p text)

/-- One iteration of the `for article in articles` loop of
`filter_stale_articles` over the accumulator
(fresh articles, rejected count, log). -/
def filterStaleStep (cutoff : Int) (acc : List Article × Nat × List LogEvent)
    (article : Article) : List Article × Nat × List LogEvent :=
  let textToCheck := article.title ++ " " ++ article.summary
  if article.published < cutoff then
    (acc.1, acc.2.1 + 1, acc.2.2 ++ [LogEvent.rejectedAge])
  else
    match staleYearHit textToCheck with
    | some p => (acc.1, acc.2.1 + 1, acc.2.2 ++ [LogEvent.rejectedStaleYear p])
    | none => (acc.1 ++ [article], acc.2.1, acc.2.2)

/-- `filter_stale_articles(articles, max_age_hours)` of `news_fetcher.py`.
`strict` is the value read from `STRICT_24H_FILTER`. Returns the fresh
articles together with the `rejected_count` counter and the emitted log. -/
def filter_stale_articles (strict : Bool) (now : Int) (max_age_hours : Nat)
    (articles : List Article) : List Article × Nat × List LogEvent :=
  if !strict then
    (articles, 0, [LogEvent.filterDisabledWarning])
  else
    let cutoff : Int := now - (max_age_hours : Int) * 3600
    let r := articles.foldl (filterStaleStep cutoff) ([], 0, [])
    let log := r.2.2 ++ [LogEvent.filterSummary r.1.length r.2.1 cutoff]
    let log := if r.1.length = 0 then log ++ [LogEvent.zeroFreshWarning] else log
    (r.1, r.2.1, log)

/-- A raw feed entry as seen through `feedparser`: each text field is
optional, and each raw timestamp is absent (`none`), present but not
constructible into a `datetime` (`some none`), or present with a resolved
value (`some (some t)`). -/
structure RawEntry where
  title : Option String
  link : Option String
  summary : Option String
  published_parsed : Option (Option Int)
  updated_parsed : Option (Option Int)
  deriving DecidableEq, Repr

/-- Result of `feedparser.parse(feed_url)` for one source: a parsed feed
(optional feed-level title and entry list) or a raised error. -/
inductive FeedResult where
  | ok (feedTitle : Option String) (entries : List RawEntry)
  | err (msg : String)
  deriving DecidableEq, Repr

/-- One configured feed source: its URL and what fetching it yields. -/
structure FeedSource where
  url : String
  result : FeedResult
  deriving DecidableEq, Repr

/-- `NewsFetcher._parse_date(entry)`: the published timestamp when present
and constructible, else the updated timestamp when present and
constructible, else `datetime.now()`. Total by construction. -/
def _parse_date (now : Int) (entry : RawEntry) : Int :=
  match entry.published_parsed with
  | some (some t) => t
  | _ =>
    match entry.updated_parsed with
    | some (some t) => t
    | _ => now

/-- The per-source body of the `for feed_url in self.feeds` loop of
`fetch_recent_news`: the articles a source contributes. An erroring source
is caught and contributes nothing; otherwise each entry whose resolved date
is strictly newer than `cutoff_time` becomes an article record. -/
def sourceArticles (now cutoff_time : Int) (s : FeedSource) : List Article :=
  match s.result with
  | FeedResult.err _ => []
  | FeedResult.ok feedTitle entries =>
      entries.filterMap (fun entry =>
        let published := _parse_date now entry
        if cutoff_time < published then
          some { title := entry.title.getD "No title"
                 link := entry.link.getD ""
                 source := feedTitle.getD s.url
                 published := published
                 summary := String.mk ((entry.summary.getD "").toList.take 500) }
        else none)

/-- The log events of the per-source loop: a fetch-start line per source and
an error line for a source whose fetch raised. -/
def sourceLog (s : FeedSource) : List LogEvent :=
  [LogEvent.fetchStart s.url] ++
    (match s.result with
     | FeedResult.err _ => [LogEvent.fetchError s.url]
     | FeedResult.ok _ _ => [])

/-- The sort key relation of `all_articles.sort(key=lambda x: x["published"],
reverse=True)`: `a` may come before `b` when `a` is at least as recent. -/
def pubGE (a b : Article) : Prop := b.published ≤ a.published

instance : DecidableRel pubGE := fun a b => Int.decLe b.published a.published

instance : IsTotal Article pubGE := ⟨fun a b => le_total b.published a.published⟩

instance : IsTrans Article pubGE := ⟨fun _ _ _ hab hbc => le_trans hbc hab⟩

/-- The state of a `NewsFetcher` instance: its feed list and the article
cache `_articles_cache` (a map from id to the full record). -/
structure FetcherState where
  feeds : List FeedSource
  cache : List (Nat × Article)
  deriving DecidableEq, Repr

/-- `NewsFetcher.__init__(feeds)`: `self.feeds = feeds or RSS_FEEDS`, so both
`None` and an empty (falsy) list fall back to the default.
Modelled from the spec: `RSS_FEEDS` comes from `config.py`, which is not in
the sources; per the spec the configuration collaborator "supplies the
default list of source identifiers when the caller does not provide one
explicitly", so the default list is the parameter `defaultFeeds`. -/
def newsFetcherInit (defaultFeeds : List FeedSource)
    (feeds : Option (List FeedSource)) : FetcherState :=
  { feeds :=
      match feeds with
      | some l => if l.isEmpty then defaultFeeds else l
      | none => defaultFeeds
    cache := [] }

/-- `NewsFetcher.fetch_recent_news(hours, limit)`. Returns the result list
(pairs of assigned id and article), the new state (same feeds, cache
replaced by exactly the result records), and the emitted log. -/
def fetch_recent_news (strict : Bool) (now : Int) (hours : Nat) (limit : Nat)
    (st : FetcherState) :
    List (Nat × Article) × FetcherState × List LogEvent :=
  let cutoff_time : Int := now - (hours : Int) * 3600
  let all_articles := (st.feeds.map (sourceArticles now cutoff_time)).flatten
  let sorted := List.insertionSort pubGE all_articles
  let fs := filter_stale_articles strict now 24 sorted
  let limited := fs.1.take limit
  let result := limited.enum
  (result, { feeds := st.feeds, cache := result },
    (st.feeds.map sourceLog).flatten ++ fs.2.2 ++ [LogEvent.fetchedCount result.length])

/-- `NewsFetcher.get_all_headlines(hours, limit)`: fetch, then project each
record to (id, title, source). -/
def get_all_headlines (strict : Bool) (now : Int) (hours : Nat) (limit : Nat)
    (st : FetcherState) :
    List (Nat × String × String) × FetcherState × List LogEvent :=
  let r := fetch_recent_news strict now hours limit st
  (r.1.map (fun p => (p.1, p.2.title, p.2.source)), r.2.1, r.2.2)

/-- `NewsFetcher.get_articles_by_ids(ids)`: for each id in order, append the
cached record when present, else log a warning and skip. -/
def get_articles_by_ids (st : FetcherState) (ids : List Nat) :
    List (Nat × Article) × List LogEvent :=
  ids.foldl (fun acc article_id =>
    match st.cache.lookup article_id with
    | some a => (acc.1 ++ [(article_id, a)], acc.2)
    | none => (acc.1, acc.2 ++ [LogEvent.idNotFoundWarning article_id]))
    ([], [])

/-- The keep decision of one iteration of the enabled staleness filter:
kept when not older than the cutoff and no stale-year pattern matches. -/
def staleKeep (cutoff : Int) (article : Article) : Bool :=
  if article.published < cutoff then false
  else (staleYearHit (article.title ++ " " ++ article.summary)).isNone

/-- The debug events one article contributes inside the enabled filter. -/
def rejectEvents (cutoff : Int) (article : Article) : List LogEvent :=
  if article.published < cutoff then [LogEvent.rejectedAge]
  else
    match staleYearHit (article.title ++ " " ++ article.summary) with
    | some p => [LogEvent.rejectedStaleYear p]
    | none => []

/-- Concrete scenario entry: published right at the fetch time `1000000000`. -/
def entryAlpha : RawEntry :=
  { title := some "Alpha launch", link := some "http://a/one",
    summary := some "a fresh story about launches",
    published_parsed := some (some 1000000000), updated_parsed := none }

/-- Concrete scenario entry: published one hour before fetch time, clean text. -/
def entryBeta : RawEntry :=
  { title := some "Beta update", link := some "http://a/two",
    summary := some "another fresh story",
    published_parsed := some (some 999996400), updated_parsed := none }

/-- Concrete scenario entry: published 25 hours before fetch time. -/
def entryGamma : RawEntry :=
  { title := some "Gamma old", link := some "http://a/three",
    summary := some "old news from long ago",
    published_parsed := some (some 999910000), updated_parsed := none }

/-- Concrete scenario entry: one hour old but its summary reads "in 2023 ...". -/
def entryDelta : RawEntry :=
  { title := some "Delta retro", link := some "http://a/four",
    summary := some "in 2023 something happened",
    published_parsed := some (some 999996400), updated_parsed := none }

/-- Concrete scenario feed carrying the four scenario entries. -/
def feedOne : FeedSource :=
  { url := "http://feed", result := FeedResult.ok (some "Feed One") [entryAlpha, entryBeta, entryGamma, entryDelta] }

/-- Concrete fetcher state holding only `feedOne`, empty cache. -/
def scenarioState : FetcherState := { feeds := [feedOne], cache := [] }

/-- The article record `fetch_recent_news` builds from `entryAlpha`. -/
def articleAlpha : Article :=
  { title := "Alpha launch", link := "http://a/one", source := "Feed One",
    published := 1000000000, summary := "a fresh story about launches" }

/-- The article record `fetch_recent_news` builds from `entryBeta`. -/
def articleBeta : Article :=
  { title := "Beta update", link := "http://a/two", source := "Feed One",
    published := 999996400, summary := "another fresh story" }

/-- The article record `fetch_recent_news` builds from `entryDelta`. -/
def articleDelta : Article :=
  { title := "Delta retro", link := "http://a/four", source := "Feed One",
    published := 999996400, summary := "in 2023 something happened" }

/-- A raw entry with every field absent (no parseable date at all). -/
def emptyEntry : RawEntry :=
  { title := none, link := none, summary := none,
    published_parsed := none, updated_parsed := none }

/-- A clean concrete article used to instantiate filter statements. -/
def articleKappa : Article :=
  { title := "Kappa note", link := "", source := "s", published := 0,
    summary := "plain words only" }

/-- An entry whose summary is clean for its first 500 characters and mentions
"2023" only after position 500. -/
def entryEpsilon : RawEntry :=
  { title := some "Epsilon item", link := some "http://b/one",
    summary := some (String.mk (List.replicate 500 'x' ++ " in 2023 event happened".toList)),
    published_parsed := some (some 999999900), updated_parsed := none }

/-- Fetcher state holding only the feed with `entryEpsilon`. -/
def epsilonState : FetcherState :=
  { feeds := [{ url := "http://feedb", result := FeedResult.ok none [entryEpsilon] }], cache := [] }

/-- The article built from `entryEpsilon`: its summary is the first 500
characters only, so the "2023" marker is gone. -/
def articleEpsilon : Article :=
  { title := "Epsilon item", link := "http://b/one", source := "http://feedb",
    published := 999999900, summary := String.mk (List.replicate 500 'x') }

/-- An entry whose summary differs from `entryLongR` only after position 500. -/
def entryLongQ : RawEntry :=
  { title := some "Lambda piece", link := some "http://c/one",
    summary := some (String.mk (List.replicate 500 'a' ++ ['q'])),
    published_parsed := some (some 999999950), updated_parsed := none }

/-- An entry whose summary differs from `entryLongQ` only after position 500. -/
def entryLongR : RawEntry :=
  { title := some "Lambda piece", link := some "http://c/one",
    summary := some (String.mk (List.replicate 500 'a' ++ ['r'])),
    published_parsed := some (some 999999950), updated_parsed := none }

theorem length_filter_add_countP_not {α : Type _} (p : α → Bool) (l : List α) :
    (l.filter p).length + l.countP (fun a => !p a) = l.length := by
  induction l with
  | nil => simp
  | cons a l ih =>
    by_cases h : p a <;> simp [List.filter_cons, List.countP_cons, h] <;> omega

theorem foldl_filterStaleStep (cutoff : Int) (l : List Article) :
    ∀ (accL : List Article) (accN : Nat) (accLog : List LogEvent),
      l.foldl (filterStaleStep cutoff) (accL, accN, accLog) =
        (accL ++ l.filter (staleKeep cutoff),
          accN + l.countP (fun a => !staleKeep cutoff a),
          accLog ++ (l.map (rejectEvents cutoff)).flatten) := by
  induction l with
  | nil => intro accL accN accLog; simp
  | cons a l ih =>
    intro accL accN accLog
    rw [List.foldl_cons]
    by_cases hage : a.published < cutoff
    · have hstep : filterStaleStep cutoff (accL, accN, accLog) a =
          (accL, accN + 1, accLog ++ [LogEvent.rejectedAge]) := by
        simp [filterStaleStep, hage]
      have hk : staleKeep cutoff a = false := by simp [staleKeep, hage]
      have hr : rejectEvents cutoff a = [LogEvent.rejectedAge] := by
        simp [rejectEvents, hage]
      rw [hstep, ih]
      simp [List.filter_cons, hk, List.countP_cons, hr, Prod.ext_iff]
      omega
    · rcases hst : staleYearHit (a.title ++ " " ++ a.summary) with _ | p
      · have hstep : filterStaleStep cutoff (accL, accN, accLog) a =
            (accL ++ [a], accN, accLog) := by
          simp [filterStaleStep, hage, hst]
        have hk : staleKeep cutoff a = true := by simp [staleKeep, hage, hst]
        have hr : rejectEvents cutoff a = [] := by simp [rejectEvents, hage, hst]
        rw [hstep, ih]
        simp [List.filter_cons, hk, List.countP_cons, hr]
      · have hstep : filterStaleStep cutoff (accL, accN, accLog) a =
            (accL, accN + 1, accLog ++ [LogEvent.rejectedStaleYear p]) := by
          simp [filterStaleStep, hage, hst]
        have hk : staleKeep cutoff a = false := by simp [staleKeep, hage, hst]
        have hr : rejectEvents cutoff a = [LogEvent.rejectedStaleYear p] := by
          simp [rejectEvents, hage, hst]
        rw [hstep, ih]
        simp [List.filter_cons, hk, List.countP_cons, hr, Prod.ext_iff]
        omega

theorem filter_stale_true_fst (now : Int) (max_age_hours : Nat) (l : List Article) :
    (filter_stale_articles true now max_age_hours l).1 =
      l.filter (staleKeep (now - (max_age_hours : Int) * 3600)) := by
  simp [filter_stale_articles, foldl_filterStaleStep]

theorem filter_stale_true_count (now : Int) (max_age_hours : Nat) (l : List Article) :
    (filter_stale_articles true now max_age_hours l).1.length +
      (filter_stale_articles true now max_age_hours l).2.1 = l.length := by
  simp only [filter_stale_articles, Bool.not_true, foldl_filterStaleStep]
  simpa using length_filter_add_countP_not (staleKeep (now - (max_age_hours : Int) * 3600)) l

theorem filter_stale_fst_sublist (strict : Bool) (now : Int) (max_age_hours : Nat)
    (l : List Article) :
    (filter_stale_articles strict now max_age_hours l).1.Sublist l := by
  cases strict
  · simp [filter_stale_articles]
  · rw [filter_stale_true_fst]
    exact List.filter_sublist l

theorem pairwise_enumFrom {α : Type _} {R : α → α → Prop} :
    ∀ (l : List α) (n : Nat), l.Pairwise R →
      (List.enumFrom n l).Pairwise (fun p q => R p.2 q.2)
  | [], _, _ => by simp
  | a :: l, n, h => by
    rw [List.enumFrom_cons]
    rcases List.pairwise_cons.mp h with ⟨ha, hl⟩
    refine List.pairwise_cons.mpr ⟨?_, pairwise_enumFrom l (n + 1) hl⟩
    rintro ⟨i, x⟩ hq
    rcases List.mem_enumFrom hq with ⟨-, -, h3⟩
    exact h3 ▸ ha _ (List.getElem_mem _)

theorem enumFrom_getElem? {α : Type _} :
    ∀ (l : List α) (n i : Nat),
      (List.enumFrom n l)[i]? = l[i]?.map (fun a => (n + i, a))
  | [], n, i => by simp
  | a :: l, n, 0 => by simp
  | a :: l, n, i + 1 => by
    rw [List.enumFrom_cons]
    simp only [List.getElem?_cons_succ]
    rw [enumFrom_getElem? l (n + 1) i]
    have h : n + 1 + i = n + (i + 1) := by omega
    rw [h]

theorem lookup_enumFrom {α : Type _} :
    ∀ (l : List α) (n i : Nat),
      List.lookup i (List.enumFrom n l) = if n ≤ i then l[i - n]? else none
  | [], n, i => by simp
  | a :: l, n, i => by
    rw [List.enumFrom_cons, List.lookup_cons]
    by_cases hin : i = n
    · subst hin
      simp
    · have hbeq : (i == n) = false := by simp [hin]
      rw [hbeq]
      rw [lookup_enumFrom l (n + 1) i]
      rcases Nat.lt_or_ge i (n + 1) with hlt | hge
      · have h1 : ¬(n + 1 ≤ i) := by omega
        have h2 : ¬(n ≤ i) := by omega
        simp [h1, h2]
      · have h1 : n + 1 ≤ i := hge
        have h2 : n ≤ i := by omega
        have h3 : i - n = (i - (n + 1)) + 1 := by omega
        simp only [if_pos h1, if_pos h2, h3, List.getElem?_cons_succ]

theorem lookup_enum {α : Type _} (l : List α) (i : Nat) :
    List.lookup i l.enum = l[i]? := by
  have h := lookup_enumFrom l 0 i
  simpa using h

theorem enum_getElem? {α : Type _} (l : List α) (i : Nat) :
    l.enum[i]? = l[i]?.map (fun a => (i, a)) := by
  have h := enumFrom_getElem? l 0 i
  simp only [Nat.zero_add] at h
  exact h

theorem snd_mem_of_mem_enum {α : Type _} {p : Nat × α} {l : List α}
    (h : p ∈ l.enum) : p.2 ∈ l := by
  obtain ⟨i, x⟩ := p
  rcases List.mem_enumFrom h with ⟨-, -, h3⟩
  exact h3 ▸ List.getElem_mem _

theorem foldl_getByIds (st : FetcherState) (ids : List Nat) :
    ∀ (accL : List (Nat × Article)) (accLog : List LogEvent),
      ids.foldl (fun acc article_id =>
          match st.cache.lookup article_id with
          | some a => (acc.1 ++ [(article_id, a)], acc.2)
          | none => (acc.1, acc.2 ++ [LogEvent.idNotFoundWarning article_id]))
        (accL, accLog) =
      (accL ++ ids.filterMap (fun i => (st.cache.lookup i).map (fun a => (i, a))),
        accLog ++ (ids.filter (fun i => (st.cache.lookup i).isNone)).map
          LogEvent.idNotFoundWarning) := by
  induction ids with
  | nil => intro accL accLog; simp
  | cons i ids ih =>
    intro accL accLog
    rw [List.foldl_cons]
    rcases hl : st.cache.lookup i with _ | a
    · simp only [hl]
      rw [ih]
      simp [List.filterMap_cons, List.filter_cons, hl]
    · simp only [hl]
      rw [ih]
      simp [List.filterMap_cons, List.filter_cons, hl]

theorem getByIds_eq (st : FetcherState) (ids : List Nat) :
    get_articles_by_ids st ids =
      (ids.filterMap (fun i => (st.cache.lookup i).map (fun a => (i, a))),
        (ids.filter (fun i => (st.cache.lookup i).isNone)).map
          LogEvent.idNotFoundWarning) := by
  unfold get_articles_by_ids
  rw [foldl_getByIds]
  simp

theorem fetch_result_eq (strict : Bool) (now : Int) (hours limit : Nat)
    (st : FetcherState) :
    (fetch_recent_news strict now hours limit st).1 =
      ((filter_stale_articles strict now 24
          (List.insertionSort pubGE
            ((st.feeds.map
              (sourceArticles now (now - (hours : Int) * 3600))).flatten))).1.take
        limit).enum := rfl

theorem fetch_cache_eq (strict : Bool) (now : Int) (hours limit : Nat)
    (st : FetcherState) :
    (fetch_recent_news strict now hours limit st).2.1.cache =
      (fetch_recent_news strict now hours limit st).1 := rfl

/-- C1: with the staleness filter switch enabled, `fetch_recent_news` never
returns an article whose resolved published timestamp is earlier than `now`
minus 24 hours, for every configuration of sources and entries and every
`recency_hours` and `limit` (in particular when `recency_hours` exceeds 24). -/
theorem c1_no_stale_article_returned (now : Int) (hours limit : Nat)
    (st : FetcherState) (p : Nat × Article)
    (hmem : p ∈ (fetch_recent_news true now hours limit st).1) :
    now - 24 * 3600 ≤ p.2.published := by
  rw [fetch_result_eq] at hmem
  have h2 := snd_mem_of_mem_enum hmem
  have h3 := (List.take_sublist _ _).subset h2
  rw [filter_stale_true_fst] at h3
  rcases List.mem_filter.mp h3 with ⟨-, hkeep⟩
  have hage : ¬ p.2.published < now - ((24 : Nat) : Int) * 3600 := by
    intro h
    rw [staleKeep, if_pos h] at hkeep
    exact Bool.false_ne_true hkeep
  push_cast at hage
  omega

/-- Witness for C1 at the concrete scenario state. -/
theorem c1_witness :
    (1000000000 : Int) - 24 * 3600 ≤ articleAlpha.published :=
  c1_no_stale_article_returned 1000000000 48 50 scenarioState (0, articleAlpha)
    (by decide)

/-- C2: the `id`s carried by the result of `fetch_recent_news` are exactly
`0..len(result)-1` in list order, and the list is sorted by non-increasing
resolved published timestamp, so `id` strictly increases as `published`
decreases; moreover the returned articles appear in the order of the stable
descending sort of the aggregated articles, in which any pair already in
correct (in particular tied) relative order keeps its original order. -/
theorem c2_ids_dense_and_sorted (strict : Bool) (now : Int) (hours limit : Nat)
    (st : FetcherState) :
    ((fetch_recent_news strict now hours limit st).1.map Prod.fst =
      List.range (fetch_recent_news strict now hours limit st).1.length) ∧
    List.Pairwise (fun p q : Nat × Article => q.2.published ≤ p.2.published)
      (fetch_recent_news strict now hours limit st).1 ∧
    (((fetch_recent_news strict now hours limit st).1.map Prod.snd).Sublist
      (List.insertionSort pubGE
        ((st.feeds.map
          (sourceArticles now (now - (hours : Int) * 3600))).flatten))) ∧
    ∀ a b : Article, b.published ≤ a.published →
      List.Sublist [a, b]
        ((st.feeds.map (sourceArticles now (now - (hours : Int) * 3600))).flatten) →
      List.Sublist [a, b]
        (List.insertionSort pubGE
          ((st.feeds.map
            (sourceArticles now (now - (hours : Int) * 3600))).flatten)) := by
  refine ⟨?_, ?_, ?_, ?_⟩
  · rw [fetch_result_eq, List.enum_map_fst, List.enum_length]
  · rw [fetch_result_eq]
    have hs : List.Sorted pubGE
        (List.insertionSort pubGE
          ((st.feeds.map
            (sourceArticles now (now - (hours : Int) * 3600))).flatten)) :=
      List.sorted_insertionSort pubGE _
    have h2 : List.Pairwise pubGE
        ((filter_stale_articles strict now 24
          (List.insertionSort pubGE
            ((st.feeds.map
              (sourceArticles now (now - (hours : Int) * 3600))).flatten))).1.take
          limit) :=
      List.Pairwise.sublist
        ((List.take_sublist _ _).trans (filter_stale_fst_sublist strict now 24 _)) hs
    exact pairwise_enumFrom _ 0 h2
  · rw [fetch_result_eq, List.enum_map_snd]
    exact (List.take_sublist _ _).trans (filter_stale_fst_sublist strict now 24 _)
  · intro a b hab hsub
    exact List.pair_sublist_insertionSort hab hsub

/-- Witness for C2's stability part at a concrete tied pair. -/
theorem c2_witness :
    List.Sublist [articleBeta, articleDelta]
      (List.insertionSort pubGE
        ((scenarioState.feeds.map
          (sourceArticles 1000000000 (1000000000 - ((48 : Nat) : Int) * 3600))).flatten)) :=
  (c2_ids_dense_and_sorted true 1000000000 48 50 scenarioState).2.2.2 articleBeta
    articleDelta (by decide) (by decide)

/-- C3: with the filter enabled, four candidates dated now, now-1h (clean),
now-25h, and now-1h with "in 2023 ..." in the text, fetched with
`recency_hours = 48`, yield exactly the now article and the clean now-1h
article, with ids 0 and 1, newest first. -/
theorem c3_concrete_scenario :
    (fetch_recent_news true 1000000000 48 50 scenarioState).1 =
      [(0, articleAlpha), (1, articleBeta)] := by decide

/-- C8: the staleness filter switch defaults to enabled, and with the switch
disabled `filter_stale_articles` returns its input list unchanged (same
articles, same order) while emitting the stale-data-may-leak warning. -/
theorem c8_default_on_and_disabled_identity :
    STRICT_24H_FILTER = true ∧
      ∀ (now : Int) (max_age_hours : Nat) (articles : List Article),
        filter_stale_articles false now max_age_hours articles =
          (articles, 0, [LogEvent.filterDisabledWarning]) :=
  ⟨rfl, fun _ _ _ => rfl⟩

theorem getByIds_enum (arts : List Article) (feeds : List FeedSource)
    (ids : List Nat) :
    get_articles_by_ids { feeds := feeds, cache := arts.enum } ids =
      (ids.filterMap (fun i => arts.enum[i]?),
        (ids.filter (fun i => (arts.enum[i]?).isNone)).map
          LogEvent.idNotFoundWarning) := by
  rw [getByIds_eq]
  have hf : (fun i =>
      ((({ feeds := feeds, cache := arts.enum } : FetcherState).cache.lookup i).map
        (fun a => (i, a)))) = fun i => arts.enum[i]? := by
    funext i
    show (List.lookup i arts.enum).map (fun a => (i, a)) = arts.enum[i]?
    rw [lookup_enum, enum_getElem?]
  have hg : (fun i =>
      (({ feeds := feeds, cache := arts.enum } : FetcherState).cache.lookup i).isNone) =
      fun i => (arts.enum[i]?).isNone := by
    funext i
    show (List.lookup i arts.enum).isNone = (arts.enum[i]?).isNone
    rw [lookup_enum, enum_getElem?]
    cases arts[i]? <;> rfl
  rw [hf, hg]

/-- C4: after a call to `fetch_recent_news`, `get_articles_by_ids` returns, in
request order, the full cached record for exactly those ids assigned in the
most recent fetch result, logs a warning (never raising) for every other id,
and the cache holds exactly the latest result records — it is fully replaced
on every fetch, whatever the previous cache held. -/
theorem c4_cache_lookup_after_fetch (strict : Bool) (now : Int)
    (hours limit : Nat) (feeds : List FeedSource)
    (cache0 : List (Nat × Article)) (ids : List Nat) :
    ((get_articles_by_ids
        (fetch_recent_news strict now hours limit
          { feeds := feeds, cache := cache0 }).2.1 ids).1 =
      ids.filterMap
        (fun i =>
          (fetch_recent_news strict now hours limit
            { feeds := feeds, cache := cache0 }).1[i]?)) ∧
    ((get_articles_by_ids
        (fetch_recent_news strict now hours limit
          { feeds := feeds, cache := cache0 }).2.1 ids).2 =
      (ids.filter
        (fun i =>
          ((fetch_recent_news strict now hours limit
            { feeds := feeds, cache := cache0 }).1[i]?).isNone)).map
        LogEvent.idNotFoundWarning) ∧
    (fetch_recent_news strict now hours limit
        { feeds := feeds, cache := cache0 }).2.1.cache =
      (fetch_recent_news strict now hours limit
        { feeds := feeds, cache := cache0 }).1 := by
  have h := getByIds_enum
    ((filter_stale_articles strict now 24
      (List.insertionSort pubGE
        ((feeds.map (sourceArticles now (now - (hours : Int) * 3600))).flatten))).1.take
      limit) feeds ids
  exact ⟨congrArg Prod.fst h, congrArg Prod.snd h, rfl⟩

/-- C5: a source whose fetch raises contributes nothing: the result set (and
the replaced cache) of `fetch_recent_news` with the failing source present
is identical to the one computed with that source omitted, and no exception
propagates (the function is total). -/
theorem c5_failing_source_is_omitted (strict : Bool) (now : Int)
    (hours limit : Nat) (url msg : String) (pre post : List FeedSource)
    (cache0 : List (Nat × Article)) :
    ((fetch_recent_news strict now hours limit
        { feeds := pre ++ { url := url, result := FeedResult.err msg } :: post,
          cache := cache0 }).1 =
      (fetch_recent_news strict now hours limit
        { feeds := pre ++ post, cache := cache0 }).1) ∧
    ((fetch_recent_news strict now hours limit
        { feeds := pre ++ { url := url, result := FeedResult.err msg } :: post,
          cache := cache0 }).2.1.cache =
      (fetch_recent_news strict now hours limit
        { feeds := pre ++ post, cache := cache0 }).2.1.cache) := by
  have hall :
      ((pre ++ { url := url, result := FeedResult.err msg } :: post).map
        (sourceArticles now (now - (hours : Int) * 3600))).flatten =
      ((pre ++ post).map
        (sourceArticles now (now - (hours : Int) * 3600))).flatten := by
    simp [List.map_append, sourceArticles]
  constructor
  · rw [fetch_result_eq, fetch_result_eq, hall]
  · rw [fetch_cache_eq, fetch_cache_eq, fetch_result_eq, fetch_result_eq, hall]

/-- C6 counterexample: `__init__` evaluates `feeds or RSS_FEEDS`, and an
explicitly passed empty list is falsy, so it falls back to the default
feeds; with a default feed that yields fresh articles, `fetch_recent_news`
returns a non-empty list, refuting the claim for the explicit-empty-list
case. -/
theorem c6_counterexample :
    (fetch_recent_news true 1000000000 48 50
        (newsFetcherInit [feedOne] (some []))).1 ≠ [] := by decide

/-- C6 (amended): when the effective source list is empty — the caller passes
no list or an empty one and the configured default feed list is empty, since
an explicitly passed empty list falls back to the defaults — fetching with
the filter at its default (enabled) returns an empty list and emits the
zero-fresh-articles warning rather than raising. -/
theorem c6_amended_empty_feeds (now : Int) (hours limit : Nat)
    (fa : Option (List FeedSource)) (h : fa = none ∨ fa = some []) :
    ((fetch_recent_news STRICT_24H_FILTER now hours limit
        (newsFetcherInit [] fa)).1 = []) ∧
    LogEvent.zeroFreshWarning ∈
      (fetch_recent_news STRICT_24H_FILTER now hours limit
        (newsFetcherInit [] fa)).2.2 := by
  have hst : newsFetcherInit [] fa = { feeds := [], cache := [] } := by
    rcases h with h | h <;> subst h <;> rfl
  rw [hst]
  constructor
  · simp [fetch_recent_news, filter_stale_articles, STRICT_24H_FILTER]
  · simp [fetch_recent_news, filter_stale_articles, STRICT_24H_FILTER, sourceLog]

/-- Witness for C6 (amended) with no list passed and empty defaults. -/
theorem c6_amended_witness :
    ((fetch_recent_news STRICT_24H_FILTER 0 8 50 (newsFetcherInit [] none)).1 = []) ∧
    LogEvent.zeroFreshWarning ∈
      (fetch_recent_news STRICT_24H_FILTER 0 8 50 (newsFetcherInit [] none)).2.2 :=
  c6_amended_empty_feeds 0 8 50 none (Or.inl rfl)

/-- C7: with the filter enabled, an article that passes the age check is kept
exactly when no stale-year marker matches the concatenation of its title and
summary (the hit reported is the first matching pattern, by `staleYearHit`),
and fresh plus rejected counts partition the input — no double counting. -/
theorem c7_stale_year_check (now : Int) (articles : List Article) (a : Article)
    (hmem : a ∈ articles) (hage : ¬ a.published < now - 24 * 3600) :
    (a ∈ (filter_stale_articles true now 24 articles).1 ↔
      staleYearHit (a.title ++ " " ++ a.summary) = none) ∧
    (filter_stale_articles true now 24 articles).1.length +
      (filter_stale_articles true now 24 articles).2.1 = articles.length := by
  refine ⟨?_, filter_stale_true_count now 24 articles⟩
  have hcut : now - ((24 : Nat) : Int) * 3600 = now - 24 * 3600 := by
    push_cast
    ring
  rw [filter_stale_true_fst, hcut, List.mem_filter]
  simp only [staleKeep, if_neg hage, hmem, true_and]
  exact Option.isNone_iff_eq_none

/-- Witness for C7 at a concrete clean article. -/
theorem c7_witness :
    ((articleKappa ∈ (filter_stale_articles true 0 24 [articleKappa]).1 ↔
      staleYearHit (articleKappa.title ++ " " ++ articleKappa.summary) = none) ∧
    (filter_stale_articles true 0 24 [articleKappa]).1.length +
      (filter_stale_articles true 0 24 [articleKappa]).2.1 = 1) :=
  c7_stale_year_check 0 [articleKappa] articleKappa (by decide) (by decide)

/-- C9: `_parse_date` is total and resolves by the fallback chain — parsed
published timestamp when present and constructible, else parsed updated
timestamp when present and constructible, else the current time — so an
entry with no parseable date resolves to `now` and passes both the recency
filter (for any positive window) and the staleness age check, regardless of
its true age. -/
theorem c9_parse_date_fallback (now : Int) (hours : Nat) (entry : RawEntry) :
    (∀ t, entry.published_parsed = some (some t) → _parse_date now entry = t) ∧
    ((∀ t, entry.published_parsed ≠ some (some t)) →
      ∀ t, entry.updated_parsed = some (some t) → _parse_date now entry = t) ∧
    ((∀ t, entry.published_parsed ≠ some (some t)) →
      (∀ t, entry.updated_parsed ≠ some (some t)) →
      _parse_date now entry = now ∧
        (0 < hours → now - (hours : Int) * 3600 < _parse_date now entry) ∧
        ¬ _parse_date now entry < now - 24 * 3600) := by
  refine ⟨?_, ?_, ?_⟩
  · intro t ht
    simp [_parse_date, ht]
  · intro hp t ht
    rcases hpp : entry.published_parsed with _ | op
    · simp [_parse_date, hpp, ht]
    · rcases op with _ | t2
      · simp [_parse_date, hpp, ht]
      · exact absurd hpp (hp t2)
  · intro hp hu
    have hval : _parse_date now entry = now := by
      have hppv : ∀ t, entry.published_parsed ≠ some (some t) := hp
      rcases hpp : entry.published_parsed with _ | op
      · rcases hup : entry.updated_parsed with _ | ou
        · simp [_parse_date, hpp, hup]
        · rcases ou with _ | t2
          · simp [_parse_date, hpp, hup]
          · exact absurd hup (hu t2)
      · rcases op with _ | t2
        · rcases hup : entry.updated_parsed with _ | ou
          · simp [_parse_date, hpp, hup]
          · rcases ou with _ | t3
            · simp [_parse_date, hpp, hup]
            · exact absurd hup (hu t3)
        · exact absurd hpp (hppv t2)
    refine ⟨hval, ?_, ?_⟩
    · intro hh
      rw [hval]
      omega
    · rw [hval]
      omega

/-- Witness for C9 at an entry with no fields at all. -/
theorem c9_witness :
    _parse_date 0 emptyEntry = 0 ∧
      ((0 : Int) - ((8 : Nat) : Int) * 3600 < _parse_date 0 emptyEntry) ∧
      ¬ _parse_date 0 emptyEntry < 0 - 24 * 3600 := by
  have h := (c9_parse_date_fallback 0 8 emptyEntry).2.2
    (fun t ht => by simp [emptyEntry] at ht)
    (fun t ht => by simp [emptyEntry] at ht)
  exact ⟨h.1, h.2.1 (by decide), h.2.2⟩

theorem sourceArticles_entry_congr (now cutoff : Int) (url : String)
    (ft : Option String) (pre post : List RawEntry) (e1 e2 : RawEntry)
    (h1 : e1.title = e2.title) (h2 : e1.link = e2.link)
    (h3 : e1.published_parsed = e2.published_parsed)
    (h4 : e1.updated_parsed = e2.updated_parsed)
    (h5 : (e1.summary.getD "").toList.take 500 =
      (e2.summary.getD "").toList.take 500) :
    sourceArticles now cutoff
        { url := url, result := FeedResult.ok ft (pre ++ e1 :: post) } =
      sourceArticles now cutoff
        { url := url, result := FeedResult.ok ft (pre ++ e2 :: post) } := by
  have hpd : _parse_date now e1 = _parse_date now e2 := by
    unfold _parse_date
    rw [h3, h4]
  simp only [sourceArticles]
  rw [List.filterMap_append, List.filterMap_append, List.filterMap_cons,
    List.filterMap_cons, hpd, h1, h2, h5]

/-- C10: the summary is truncated to its first 500 characters before the
stale-year check, so the filtering decision depends only on the title and
the first 500 summary characters: two entries identical except beyond
position 500 yield identical fetch results, and a stale-year marker sitting
only after position 500 does not cause rejection (the `entryEpsilon` feed,
whose marker is past position 500, is returned). -/
theorem c10_truncation_before_stale_check :
    (∀ (strict : Bool) (now : Int) (hours limit : Nat) (url : String)
        (ft : Option String) (pre post : List RawEntry)
        (A B : List FeedSource) (cache0 : List (Nat × Article))
        (e1 e2 : RawEntry),
      e1.title = e2.title → e1.link = e2.link →
      e1.published_parsed = e2.published_parsed →
      e1.updated_parsed = e2.updated_parsed →
      (e1.summary.getD "").toList.take 500 =
        (e2.summary.getD "").toList.take 500 →
      (fetch_recent_news strict now hours limit
          { feeds :=
              A ++ { url := url, result := FeedResult.ok ft (pre ++ e1 :: post) } :: B,
            cache := cache0 }).1 =
        (fetch_recent_news strict now hours limit
          { feeds :=
              A ++ { url := url, result := FeedResult.ok ft (pre ++ e2 :: post) } :: B,
            cache := cache0 }).1) ∧
    (fetch_recent_news true 1000000000 8 50 epsilonState).1 =
      [(0, articleEpsilon)] := by
  constructor
  · intro strict now hours limit url ft pre post A B cache0 e1 e2 h1 h2 h3 h4 h5
    have hsrc := sourceArticles_entry_congr now (now - (hours : Int) * 3600) url ft
      pre post e1 e2 h1 h2 h3 h4 h5
    have hall :
        ((A ++ { url := url, result := FeedResult.ok ft (pre ++ e1 :: post) } :: B).map
          (sourceArticles now (now - (hours : Int) * 3600))).flatten =
        ((A ++ { url := url, result := FeedResult.ok ft (pre ++ e2 :: post) } :: B).map
          (sourceArticles now (now - (hours : Int) * 3600))).flatten := by
      rw [List.map_append, List.map_append, List.map_cons, List.map_cons, hsrc]
    rw [fetch_result_eq, fetch_result_eq, hall]
  · decide

/-- Witness for C10 at two entries differing only after position 500. -/
theorem c10_witness :
    (fetch_recent_news true 1000000000 8 50
        { feeds := [{ url := "http://c", result := FeedResult.ok none [entryLongQ] }],
          cache := [] }).1 =
      (fetch_recent_news true 1000000000 8 50
        { feeds := [{ url := "http://c", result := FeedResult.ok none [entryLongR] }],
          cache := [] }).1 :=
  c10_truncation_before_stale_check.1 true 1000000000 8 50 "http://c" none
    [] [] [] [] [] entryLongQ entryLongR rfl rfl rfl rfl (by decide)
